import Mathlib

/-!
Shallow embedding of the sunoco EIA data pipeline (silver and gold layers).

Sources embedded:
- src/config.py: series catalog and Supply/Disposition classification.
- src/silver/transform.py: `SilverTransformation.parse_series_data`,
  `clean_and_normalize`, `run`.
- src/gold/aggregate.py: `GoldAggregation.calculate_annual_averages`,
  `pivot_to_wide_format`, `add_balance_check`, `save_annual_data`, `run`.

Modelling conventions:
- DataFrames are lists of structure values; a NaN cell is `Option.none`.
- pandas float arithmetic is idealised as exact rational arithmetic; the
  special values produced by division (NaN, +inf, -inf) are the `PFloat`
  type, with IEEE-754 zero-divide behaviour.
- pandas `DataFrame.sum(axis=1)` (skipna=True, min_count=0) is a sum of the
  present cells, and an all-NaN row therefore sums to 0.
- `Series.round(3)` is round-half-to-even at the third decimal, as in numpy.
- fallible pandas operations (`pd.to_datetime` with errors="raise",
  `pd.concat` of an empty list, `df.pivot` with duplicate keys, a missing
  `SERIES_MAPPING` key) return `Except.error`.
-/

/-! ### Series catalog (src/config.py) -/

/-- The `SERIES_MAPPING` table from src/config.py: series id to component name, in
declaration (insertion) order. -/
def SERIES_MAPPING : List (String × String) :=
  [("MDIRPP32", "Production"),
   ("MDIIMP32", "Imports"),
   ("MDINRP32", "Net_Receipts"),
   ("MDISCP32", "Stock_Change"),
   ("MDIEXP32", "Exports"),
   ("MDIUPP32", "Product_Supplied")]

/-- The `SUPPLY_COMPONENTS` list from src/config.py. -/
def SUPPLY_COMPONENTS : List String := ["Production", "Imports", "Net_Receipts"]

/-- The `DISPOSITION_COMPONENTS` list from src/config.py. -/
def DISPOSITION_COMPONENTS : List String := ["Exports", "Product_Supplied", "Stock_Change"]

/-- Lookup of `SERIES_MAPPING[series_id]` as a total function; `none` models a KeyError. -/
def seriesComponent (sid : String) : Option String :=
  (SERIES_MAPPING.find? (fun p => p.1 == sid)).map (·.2)

/-! ### String parsing helpers

`pd.to_datetime(format="%Y-%m")` and `pd.to_numeric(errors="coerce")` are
library calls in the source; they are embedded as executable parsers on the
digit/decimal fragment the pipeline feeds them. -/

/-- Numeric value of a string of decimal digit characters. -/
def digitsToNat (cs : List Char) : Nat :=
  cs.foldl (fun n c => n * 10 + (c.toNat - 48)) 0

/-- A non-empty all-digit character list. -/
def isDigits (cs : List Char) : Bool := !cs.isEmpty && cs.all Char.isDigit

/-- Split a character list on a separator character. -/
def splitOnChar (sep : Char) : List Char → List (List Char)
  | [] => [[]]
  | c :: cs =>
    let r := splitOnChar sep cs
    if c == sep then [] :: r
    else
      match r with
      | [] => [[c]]
      | g :: gs => (c :: g) :: gs

/-- Parser for `pd.to_datetime(s, format="%Y-%m")`: a digit year, one dash, and a digit
month in 1..12; anything else raises, modelled as `none`. -/
def parseYM (s : String) : Option (Int × Nat) :=
  match splitOnChar '-' s.toList with
  | [y, m] =>
    if isDigits y && isDigits m then
      let mn := digitsToNat m
      if 1 ≤ mn && mn ≤ 12 then some ((digitsToNat y : Int), mn) else none
    else none
  | _ => none

/-- Unsigned decimal literal: digits, or digits-dot-digits with at least one
digit overall. -/
def parseDecimal (cs : List Char) : Option ℚ :=
  match splitOnChar '.' cs with
  | [i] => if isDigits i then some ((digitsToNat i : ℚ)) else none
  | [i, f] =>
    if (i.all Char.isDigit && f.all Char.isDigit) && !(i.isEmpty && f.isEmpty) then
      some ((digitsToNat i : ℚ) + (digitsToNat f : ℚ) / (10 : ℚ) ^ f.length)
    else none
  | _ => none

/-- Parser for `pd.to_numeric(v, errors="coerce")` on the decimal fragment: optional
sign then a decimal literal; a failed coercion becomes NaN (`none`). -/
def parseNumeric (s : String) : Option ℚ :=
  match s.toList with
  | '-' :: rest => (parseDecimal rest).map (fun q => -q)
  | '+' :: rest => parseDecimal rest
  | cs => parseDecimal cs

/-! ### Silver layer (src/silver/transform.py) -/

/-- One row of the combined raw DataFrame entering `clean_and_normalize`
(columns period, series_id, component, value). -/
structure RawRow where
  period : String
  series_id : String
  component : String
  value : String
deriving DecidableEq, Repr

/-- One normalized observation row (the silver schema). `value_mbblpd = none`
models the NaN left by a failed numeric coercion; `date` is the parsed
(year, month) pair. -/
structure ObsRow where
  date : Int × Nat
  series_id : String
  component : String
  value_mbblpd : Option ℚ
  year : Int
  month : Nat
  category : String
deriving DecidableEq, Repr

/-- The category column: Supply / Disposition / Other by list membership
(src/silver/transform.py lines 121-125). -/
def categoryOf (c : String) : String :=
  if c ∈ SUPPLY_COMPONENTS then "Supply"
  else if c ∈ DISPOSITION_COMPONENTS then "Disposition"
  else "Other"

/-- The normalized row built from one raw row: date parsed from the period,
value coerced, year/month derived from the date, category assigned. -/
def mkObs (r : RawRow) : ObsRow :=
  let d := (parseYM r.period).getD (0, 1)
  ⟨d, r.series_id, r.component, parseNumeric r.value, d.1, d.2, categoryOf r.component⟩

/-- Code-point lexicographic order on character lists. -/
def charListLt : List Char → List Char → Bool
  | [], [] => false
  | [], _ :: _ => true
  | _ :: _, [] => false
  | a :: as, b :: bs => a.toNat < b.toNat || (a == b && charListLt as bs)

/-- The `sort_values(["date", "component"])` key order on observation rows. -/
def obsLeB (a b : ObsRow) : Bool :=
  a.date.1 < b.date.1 ||
    (a.date.1 == b.date.1 &&
      (a.date.2 < b.date.2 ||
        (a.date.2 == b.date.2 &&
          (charListLt a.component.toList b.component.toList || a.component == b.component))))

def obsLe (a b : ObsRow) : Prop := obsLeB a b = true

instance : DecidableRel obsLe := fun a b => inferInstanceAs (Decidable (obsLeB a b = true))

/-- Embeds `SilverTransformation.clean_and_normalize` (src/silver/transform.py,
lines 92-139): parse all dates (`pd.to_datetime` raises on the first
unparsable period, failing the whole call), coerce values with NaN on
failure, derive year/month and category, sort by (date, component), then
drop the rows whose value is NaN. -/
def clean_and_normalize (rows : List RawRow) : Except String (List ObsRow) :=
  if rows.all (fun r => (parseYM r.period).isSome) then
    .ok ((List.insertionSort obsLe (rows.map mkObs)).filter (fun o => o.value_mbblpd.isSome))
  else
    .error "time data does not match format"

/-- One record of a raw series response (`period`, `value`; the `series`
field is unused by the code). -/
structure SeriesRecord where
  period : String
  value : String
deriving DecidableEq, Repr

/-- A raw API response as `parse_series_data` inspects it: the "response"
key may be missing, the "data" key may be missing, or a record list is
present. -/
inductive ApiResponse where
  | noResponse
  | noData
  | withData (records : List SeriesRecord)
deriving DecidableEq, Repr

/-- Embeds `SilverTransformation.parse_series_data` (src/silver/transform.py,
lines 61-90): a missing envelope or empty record list yields an empty
DataFrame with a warning; otherwise each record becomes a row tagged with
the series id and `SERIES_MAPPING[series_id]` (a KeyError on an unknown id
is the error case). -/
def parse_series_data (sid : String) (resp : ApiResponse) : Except String (List RawRow) :=
  match resp with
  | .noResponse => .ok []
  | .noData => .ok []
  | .withData recs =>
    if recs.isEmpty then .ok []
    else
      match seriesComponent sid with
      | some comp => .ok (recs.map (fun rec => ⟨rec.period, sid, comp, rec.value⟩))
      | none => .error "KeyError"

/-- Embeds `SilverTransformation.run` (src/silver/transform.py, lines 164-199):
parse every series, keep the non-empty frames, `pd.concat` them (which
raises "No objects to concatenate" when the list is empty), then clean. -/
def silverRun (raw : List (String × ApiResponse)) : Except String (List ObsRow) := do
  let parsed ← raw.mapM (fun p => parse_series_data p.1 p.2)
  let dfs := parsed.filter (fun df => !df.isEmpty)
  if dfs.isEmpty then .error "No objects to concatenate"
  else clean_and_normalize dfs.flatten

/-! ### Gold layer (src/gold/aggregate.py) -/

/-- One silver-layer row as the gold layer consumes it (columns year,
component, value_mbblpd). -/
structure SilverRow where
  year : Int
  component : String
  value_mbblpd : ℚ
deriving DecidableEq, Repr

/-- One annual-average row in long format (columns year, component,
annual_avg_mbblpd). -/
structure AnnualRow where
  year : Int
  component : String
  annual_avg_mbblpd : ℚ
deriving DecidableEq, Repr

/-- groupby key order: year then component, as pandas sorts group keys. -/
def keyLeB (a b : Int × String) : Bool :=
  a.1 < b.1 || (a.1 == b.1 && (charListLt a.2.toList b.2.toList || a.2 == b.2))

def keyLe (a b : Int × String) : Prop := keyLeB a b = true

instance : DecidableRel keyLe := fun a b => inferInstanceAs (Decidable (keyLeB a b = true))

/-- The distinct (year, component) group keys, in pandas groupby order. -/
def groupKeys (rows : List SilverRow) : List (Int × String) :=
  List.insertionSort keyLe ((rows.map (fun r => (r.year, r.component))).dedup)

/-- The values of the (year, component) group `k`. -/
def groupValues (rows : List SilverRow) (k : Int × String) : List ℚ :=
  (rows.filter (fun r => r.year == k.1 && r.component == k.2)).map (·.value_mbblpd)

/-- Unweighted arithmetic mean of a list of values. -/
def meanQ (l : List ℚ) : ℚ := l.sum / (l.length : ℚ)

/-- Embeds `GoldAggregation.calculate_annual_averages` (src/gold/aggregate.py,
lines 57-78): `groupby(["year", "component"])["value_mbblpd"].mean()`. -/
def calculate_annual_averages (rows : List SilverRow) : List AnnualRow :=
  (groupKeys rows).map (fun k => ⟨k.1, k.2, meanQ (groupValues rows k)⟩)

/-- A wide-format yearly row: the year and one cell per data column, `none`
being the NaN a pivot leaves for a missing (year, component) pair. -/
structure WideRow where
  year : Int
  cells : List (String × Option ℚ)
deriving DecidableEq, Repr

/-- The wide table: its column list (starting with "year") and its rows. -/
structure WideTable where
  cols : List String
  rows : List WideRow
deriving DecidableEq, Repr

/-- The (year, component) keys of the long-format annual table. -/
def annualKeys (annual : List AnnualRow) : List (Int × String) :=
  annual.map (fun a => (a.year, a.component))

def intLe (a b : Int) : Prop := a ≤ b

instance : DecidableRel intLe := fun a b => inferInstanceAs (Decidable (a ≤ b))

/-- The pivot index: the distinct years, ascending. -/
def pivotYears (annual : List AnnualRow) : List Int :=
  List.insertionSort intLe ((annual.map (·.year)).dedup)

/-- The component names occurring in the long-format input (the pivoted
data columns before reordering). -/
def presentComponents (annual : List AnnualRow) : List String :=
  (annual.map (·.component)).dedup

/-- The reordered data columns (src/gold/aggregate.py, lines 100-113): the
`SERIES_MAPPING` values that are supply components and present, then the
`SERIES_MAPPING` values that are disposition components and present.
`wide_df[["year"] + component_order]` keeps exactly these columns. -/
def componentOrder (annual : List AnnualRow) : List String :=
  (SERIES_MAPPING.map (·.2)).filter
      (fun c => decide (c ∈ SUPPLY_COMPONENTS) && decide (c ∈ presentComponents annual)) ++
    (SERIES_MAPPING.map (·.2)).filter
      (fun c => decide (c ∈ DISPOSITION_COMPONENTS) && decide (c ∈ presentComponents annual))

/-- The pivoted cell for (year `y`, component `c`): the value of the unique
matching input row, or NaN (`none`) when there is none. -/
def cellOf (annual : List AnnualRow) (y : Int) (c : String) : Option ℚ :=
  (annual.find? (fun a => a.year == y && a.component == c)).map (·.annual_avg_mbblpd)

/-- Embeds `GoldAggregation.pivot_to_wide_format` (src/gold/aggregate.py, lines
80-117): `df.pivot` (raising on duplicate (year, component) keys), then
column reordering to year, supply components, disposition components. -/
def pivot_to_wide_format (annual : List AnnualRow) : Except String WideTable :=
  if (annualKeys annual).Nodup then
    .ok ⟨"year" :: componentOrder annual,
         (pivotYears annual).map (fun y =>
           ⟨y, (componentOrder annual).map (fun c => (c, cellOf annual y c))⟩)⟩
  else
    .error "Index contains duplicate entries, cannot reshape"

/-! ### Balance check and floating-point special values -/

/-- The float values `Balance_Pct_Diff` can take: NaN, +inf, -inf, or a
finite number. -/
inductive PFloat where
  | nan
  | pinf
  | ninf
  | fin (q : ℚ)
deriving DecidableEq, Repr

/-- IEEE-754 style division on the rational fragment: x/0 is NaN for x = 0
and ±inf otherwise, as numpy/pandas produce it. -/
def divF (a b : ℚ) : PFloat :=
  if b = 0 then (if a = 0 then .nan else if 0 < a then .pinf else .ninf)
  else .fin (a / b)

/-- Multiplication by the positive constant 100. -/
def scale100 : PFloat → PFloat
  | .fin q => .fin (q * 100)
  | x => x

/-- Round-half-to-even to an integer (the numpy rounding rule). -/
def roundHalfEven (q : ℚ) : ℤ :=
  if q - ⌊q⌋ < 1/2 then ⌊q⌋
  else if 1/2 < q - ⌊q⌋ then ⌊q⌋ + 1
  else if ⌊q⌋ % 2 = 0 then ⌊q⌋ else ⌊q⌋ + 1

/-- The `Series.round(3)` rule: round-half-to-even at the third decimal. -/
def round3 (q : ℚ) : ℚ := (roundHalfEven (q * 1000) : ℚ) / 1000

/-- Rounding `round(3)` on a float column: NaN and ±inf are unchanged. -/
def round3F : PFloat → PFloat
  | .fin q => .fin (round3 q)
  | x => x

/-- A wide-format yearly row after `add_balance_check`. A `none` in one of
the four derived fields means that column was not added to the frame at
all (its guard was false); when present, `Total_Supply`,
`Total_Disposition` and `Balance_Difference` are always numbers, and
`Balance_Pct_Diff` is a float that may be NaN or ±inf. -/
structure BalRow where
  year : Int
  cells : List (String × Option ℚ)
  total_Supply : Option ℚ
  total_Disposition : Option ℚ
  balance_Difference : Option ℚ
  balance_Pct_Diff : Option PFloat
deriving DecidableEq, Repr

/-- The supply columns of the wide table (`[col for col in df.columns if col in
SUPPLY_COMPONENTS]`). -/
def supplyCols (w : WideTable) : List String :=
  w.cols.filter (fun c => decide (c ∈ SUPPLY_COMPONENTS))

/-- The disposition columns of the wide table. -/
def dispositionCols (w : WideTable) : List String :=
  w.cols.filter (fun c => decide (c ∈ DISPOSITION_COMPONENTS))

/-- The cell of a wide row under a column name (NaN when the pair is absent
or the column does not occur). -/
def cellVal (r : WideRow) (c : String) : Option ℚ :=
  ((r.cells.find? (fun p => p.1 == c)).map (·.2)).join

/-- pandas `df[cols].sum(axis=1)` with the default skipna=True and
min_count=0: every NaN cell contributes 0, so an all-NaN row sums to 0. -/
def skipnaSum (r : WideRow) (cols : List String) : ℚ :=
  (cols.map (fun c => (cellVal r c).getD 0)).sum

/-- The balance-check columns computed for one wide row: `Total_Supply` /
`Total_Disposition` are skipna row sums, each added only when its column
list is non-empty; `Balance_Difference` and `Balance_Pct_Diff =
(diff / Total_Supply * 100).round(3)` are added only when both totals
exist. -/
def balRowOf (w : WideTable) (r : WideRow) : BalRow :=
  let ts : Option ℚ :=
    if supplyCols w = [] then none else some (skipnaSum r (supplyCols w))
  let td : Option ℚ :=
    if dispositionCols w = [] then none else some (skipnaSum r (dispositionCols w))
  match ts, td with
  | some s, some d =>
    ⟨r.year, r.cells, some s, some d, some (s - d),
     some (round3F (scale100 (divF (s - d) s)))⟩
  | ts, td => ⟨r.year, r.cells, ts, td, none, none⟩

/-- Embeds `GoldAggregation.add_balance_check` (src/gold/aggregate.py, lines
119-153), applied to every row of the wide table. -/
def add_balance_check (w : WideTable) : List BalRow :=
  w.rows.map (balRowOf w)

/-- The rounding `save_annual_data` applies to the persisted copy: every
numeric column except year rounded to 3 decimals. -/
def roundBalRow (r : BalRow) : BalRow :=
  ⟨r.year, r.cells.map (fun p => (p.1, p.2.map round3)), r.total_Supply.map round3,
   r.total_Disposition.map round3, r.balance_Difference.map round3,
   r.balance_Pct_Diff.map round3F⟩

/-- Embeds `GoldAggregation.save_annual_data` (src/gold/aggregate.py, lines
155-183): the table written to the gold artifact — a copy (`df.copy()`) of
the input with its numeric columns rounded; the table held by the caller is not
touched. -/
def save_annual_data (rows : List BalRow) : List BalRow := rows.map roundBalRow

/-- The aggregation pipeline as `GoldAggregation.run` composes it (lines
185-214), producing the table the caller receives: annual averages, pivot,
balance check. -/
def goldAggregate (rows : List SilverRow) : Except String (List BalRow) := do
  let annual := calculate_annual_averages rows
  let w ← pivot_to_wide_format annual
  pure (add_balance_check w)

/-- Embeds `GoldAggregation.run`: the returned table paired with the persisted
artifact (`save_annual_data` writes the rounded copy and returns the path;
`run` returns the unrounded `wide_df`). -/
def goldRun (rows : List SilverRow) : Except String (List BalRow × List BalRow) := do
  let bal ← goldAggregate rows
  pure (bal, save_annual_data bal)

/-- The cell of a balance-checked row under a data column name. -/
def balCell (b : BalRow) (c : String) : Option ℚ :=
  ((b.cells.find? (fun p => p.1 == c)).map (·.2)).join

/-! ### Concrete demonstration inputs used by the claim theorems -/

def C1input : List SilverRow := [⟨2020, "Production", 100⟩, ⟨2021, "Exports", 50⟩]

def C1w : WideTable :=
  ⟨["year", "Production", "Exports"], [⟨2021, [("Production", none), ("Exports", some 50)]⟩]⟩

def C3input : List SilverRow := [⟨2020, "Production", 0⟩, ⟨2020, "Exports", 10⟩]

def C3w : WideTable :=
  ⟨["year", "Production", "Exports"], [⟨2020, [("Production", some 180), ("Exports", some 170)]⟩]⟩

def C7input : List AnnualRow := [⟨2020, "Adjustment", 5⟩]

def C7winput : List AnnualRow := [⟨2020, "Production", 100⟩, ⟨2020, "Adjustment", 5⟩]

def C6input : List AnnualRow := [⟨2020, "Imports", 7⟩, ⟨2021, "Exports", 3⟩]

def C4input : List SilverRow :=
  [⟨2020, "Production", 100⟩, ⟨2020, "Production", 100⟩, ⟨2020, "Production", 100⟩,
   ⟨2020, "Production", 100⟩, ⟨2020, "Production", 100⟩, ⟨2020, "Production", 100⟩,
   ⟨2020, "Production", 200⟩, ⟨2020, "Production", 200⟩, ⟨2020, "Production", 200⟩,
   ⟨2020, "Production", 200⟩, ⟨2020, "Production", 200⟩, ⟨2020, "Production", 200⟩]

def C5input : List RawRow :=
  [⟨"2020-01", "SID", "Production", "100.5"⟩, ⟨"2020-02", "SID", "Production", "200.3"⟩,
   ⟨"2020-03", "SID", "Production", "invalid"⟩, ⟨"2020-04", "SID", "Production", "150.0"⟩]

def C8input : List RawRow :=
  [⟨"2020-01", "SID", "Production", "100"⟩, ⟨"not-a-date", "SID", "Production", "5"⟩]

def C9input : List (String × ApiResponse) :=
  [("MDIRPP32", .noData), ("XXXX", .withData []), ("MDIEXP32", .noResponse)]

def C10input : List SilverRow :=
  [⟨2020, "Production", 1⟩, ⟨2020, "Production", 1⟩, ⟨2020, "Production", 2⟩]

def C10ret : List BalRow :=
  [⟨2020, [("Production", some (4/3))], some (4/3), none, none, none⟩]

def C10pers : List BalRow :=
  [⟨2020, [("Production", some (1333/1000))], some (1333/1000), none, none, none⟩]

/-! ### General lemmas about the embedded operations -/

/-- A skipna row sum is the sum of exactly the present cells: an absent
cell contributes nothing. -/
theorem skipnaSum_filterMap (r : WideRow) (cols : List String) :
    skipnaSum r cols = (cols.filterMap (cellVal r)).sum := by
  induction cols with
  | nil => simp [skipnaSum]
  | cons c cs ih =>
    have hs : skipnaSum r (c :: cs) = (cellVal r c).getD 0 + skipnaSum r cs := by
      simp [skipnaSum]
    cases h : cellVal r c <;>
      simp [hs, h, ih, List.filterMap_cons]

theorem balRowOf_year (w : WideTable) (r : WideRow) : (balRowOf w r).year = r.year := by
  by_cases h1 : supplyCols w = [] <;> by_cases h2 : dispositionCols w = [] <;>
    simp [balRowOf, h1, h2]

theorem balRowOf_cells (w : WideTable) (r : WideRow) : (balRowOf w r).cells = r.cells := by
  by_cases h1 : supplyCols w = [] <;> by_cases h2 : dispositionCols w = [] <;>
    simp [balRowOf, h1, h2]

theorem balRowOf_total_Supply (w : WideTable) (r : WideRow) :
    (balRowOf w r).total_Supply =
      (if supplyCols w = [] then none else some (skipnaSum r (supplyCols w))) := by
  by_cases h1 : supplyCols w = [] <;> by_cases h2 : dispositionCols w = [] <;>
    simp [balRowOf, h1, h2]

theorem balRowOf_total_Disposition (w : WideTable) (r : WideRow) :
    (balRowOf w r).total_Disposition =
      (if dispositionCols w = [] then none else some (skipnaSum r (dispositionCols w))) := by
  by_cases h1 : supplyCols w = [] <;> by_cases h2 : dispositionCols w = [] <;>
    simp [balRowOf, h1, h2]

/-- When both column groups are present, the whole balance row. -/
theorem balRowOf_eq_of_nonempty (w : WideTable) (r : WideRow)
    (h1 : ¬supplyCols w = []) (h2 : ¬dispositionCols w = []) :
    balRowOf w r =
      ⟨r.year, r.cells, some (skipnaSum r (supplyCols w)),
       some (skipnaSum r (dispositionCols w)),
       some (skipnaSum r (supplyCols w) - skipnaSum r (dispositionCols w)),
       some (round3F (scale100 (divF
         (skipnaSum r (supplyCols w) - skipnaSum r (dispositionCols w))
         (skipnaSum r (supplyCols w)))))⟩ := by
  simp [balRowOf, h1, h2]

/-! ### Claim C2 -/

/-- Claim C2 (corrected): the aggregation stage on zero observation rows
does not fail — there is no EmptyInputError anywhere in the code; it
returns an empty (vacuous) wide table and persists an equally empty
artifact. -/
theorem C2_theorem : goldRun [] = .ok ([], []) := by
  simp +decide [goldRun, goldAggregate, calculate_annual_averages, groupKeys,
    pivot_to_wide_format, annualKeys, pivotYears, presentComponents, componentOrder,
    add_balance_check, SERIES_MAPPING, Bind.bind, Except.bind, pure, Except.pure,
    List.insertionSort, save_annual_data]

/-- Claim C2, counterexample: on the explicit zero-row input the aggregation
succeeds with an empty table instead of failing with any error. -/
theorem C2_counterexample : goldAggregate [] = .ok [] := by
  simp +decide [goldAggregate, calculate_annual_averages, groupKeys, pivot_to_wide_format,
    annualKeys, pivotYears, presentComponents, componentOrder, add_balance_check,
    SERIES_MAPPING, Bind.bind, Except.bind, pure, Except.pure, List.insertionSort]

/-! ### Claim C1 -/

theorem C1input_annual : calculate_annual_averages C1input =
    [⟨2020, "Production", 100⟩, ⟨2021, "Exports", 50⟩] := by
  simp +decide [C1input, calculate_annual_averages, groupKeys, groupValues, meanQ,
    List.insertionSort, List.orderedInsert, keyLe, keyLeB, charListLt]

theorem C1input_pivot :
    pivot_to_wide_format [⟨2020, "Production", (100 : ℚ)⟩, ⟨2021, "Exports", 50⟩] =
      .ok ⟨["year", "Production", "Exports"],
        [⟨2020, [("Production", some 100), ("Exports", none)]⟩,
         ⟨2021, [("Production", none), ("Exports", some 50)]⟩]⟩ := by
  simp +decide [pivot_to_wide_format, annualKeys, pivotYears, presentComponents,
    componentOrder, cellOf, SERIES_MAPPING, List.insertionSort, List.orderedInsert, intLe]

theorem C1input_agg : goldAggregate C1input =
    .ok [⟨2020, [("Production", some 100), ("Exports", none)], some 100, some 0,
           some 100, some (.fin 100)⟩,
         ⟨2021, [("Production", none), ("Exports", some 50)], some 0, some 50,
           some (-50), some .ninf⟩] := by
  rw [goldAggregate, C1input_annual]
  simp +decide [Bind.bind, Except.bind, C1input_pivot, pure, Except.pure,
    add_balance_check, balRowOf, supplyCols, dispositionCols, skipnaSum, cellVal, divF,
    scale100, round3F, round3, roundHalfEven]
  norm_num [Int.fract]

/-- Claim C1, counterexample: in the wide table built from `C1input`, the
2021 row has every Supply-category cell absent, yet its `Total_Supply` is
the number 0, not the absent marker — the pandas skipna sum of an all-NaN row
is 0.0. -/
theorem C1_counterexample :
    (goldAggregate C1input).map (List.map BalRow.total_Supply) = .ok [some 100, some 0] ∧
    (goldAggregate C1input).map (List.map (fun b => balCell b "Production")) =
      .ok [some 100, none] ∧
    some (0 : ℚ) ≠ (none : Option ℚ) := by
  refine ⟨?_, ?_, by simp⟩ <;> rw [C1input_agg] <;> simp +decide [balCell, Except.map]

/-- Claim C1 (corrected): the totals are presence-aware in the sense that an
absent metric value contributes nothing (each total is the sum of exactly
the present cells of its category), but a row whose Supply (resp.
Disposition) values are all absent gets the numeric total 0, not the
absent marker; a total column is omitted entirely only when its category
has no columns at all. -/
theorem C1_theorem (w : WideTable) (r : WideRow) (hr : r ∈ w.rows) :
    ∃ b ∈ add_balance_check w, b.year = r.year ∧ b.cells = r.cells ∧
      b.total_Supply = (if supplyCols w = [] then none
        else some (((supplyCols w).filterMap (cellVal r)).sum)) ∧
      b.total_Disposition = (if dispositionCols w = [] then none
        else some (((dispositionCols w).filterMap (cellVal r)).sum)) ∧
      ((∀ c ∈ supplyCols w, cellVal r c = none) → supplyCols w ≠ [] →
        b.total_Supply = some 0) ∧
      ((∀ c ∈ dispositionCols w, cellVal r c = none) → dispositionCols w ≠ [] →
        b.total_Disposition = some 0) := by
  refine ⟨balRowOf w r, List.mem_map_of_mem _ hr, balRowOf_year w r, balRowOf_cells w r,
    ?_, ?_, ?_, ?_⟩
  · rw [balRowOf_total_Supply, skipnaSum_filterMap]
  · rw [balRowOf_total_Disposition, skipnaSum_filterMap]
  · intro hall hne
    rw [balRowOf_total_Supply, if_neg hne, skipnaSum_filterMap]
    have hnil : (supplyCols w).filterMap (cellVal r) = [] :=
      List.filterMap_eq_nil_iff.mpr hall
    rw [hnil, List.sum_nil]
  · intro hall hne
    rw [balRowOf_total_Disposition, if_neg hne, skipnaSum_filterMap]
    have hnil : (dispositionCols w).filterMap (cellVal r) = [] :=
      List.filterMap_eq_nil_iff.mpr hall
    rw [hnil, List.sum_nil]

/-- Claim C1, witness: the amended statement applied to a concrete wide
table whose single row has its only supply cell absent. -/
theorem C1_witness :
    ∃ b ∈ add_balance_check C1w, b.year = 2021 ∧ b.total_Supply = some 0 ∧
      b.total_Disposition = some 50 := by
  have hr : (⟨2021, [("Production", none), ("Exports", some 50)]⟩ : WideRow) ∈ C1w.rows := by
    simp [C1w]
  obtain ⟨b, hb, hy, hc, hs, hd, _, _⟩ := C1_theorem C1w _ hr
  refine ⟨b, hb, hy, ?_, ?_⟩
  · rw [hs]; simp +decide [C1w, supplyCols, cellVal]
  · rw [hd]; simp +decide [C1w, dispositionCols, cellVal]

/-! ### Claim C3 -/

theorem C3input_annual : calculate_annual_averages C3input =
    [⟨2020, "Exports", 10⟩, ⟨2020, "Production", 0⟩] := by
  simp +decide [C3input, calculate_annual_averages, groupKeys, groupValues, meanQ,
    List.insertionSort, List.orderedInsert, keyLe, keyLeB, charListLt]

theorem C3input_pivot :
    pivot_to_wide_format [⟨2020, "Exports", (10 : ℚ)⟩, ⟨2020, "Production", 0⟩] =
      .ok ⟨["year", "Production", "Exports"],
        [⟨2020, [("Production", some 0), ("Exports", some 10)]⟩]⟩ := by
  simp +decide [pivot_to_wide_format, annualKeys, pivotYears, presentComponents,
    componentOrder, cellOf, SERIES_MAPPING, List.insertionSort, List.orderedInsert, intLe]

theorem C3input_agg : goldAggregate C3input =
    .ok [⟨2020, [("Production", some 0), ("Exports", some 10)], some 0, some 10,
           some (-10), some .ninf⟩] := by
  rw [goldAggregate, C3input_annual]
  simp +decide [Bind.bind, Except.bind, C3input_pivot, pure, Except.pure,
    add_balance_check, balRowOf, supplyCols, dispositionCols, skipnaSum, cellVal, divF,
    scale100, round3F]

/-- Claim C3, counterexample: a yearly row whose `Total_Supply` is zero but
whose `Balance_Difference` is nonzero gets `Balance_Pct_Diff = -inf`
(float division by zero), not the absent marker. -/
theorem C3_counterexample :
    (goldAggregate C3input).map (List.map BalRow.total_Supply) = .ok [some 0] ∧
    (goldAggregate C3input).map (List.map BalRow.balance_Pct_Diff) = .ok [some .ninf] ∧
    PFloat.ninf ≠ PFloat.nan := by
  refine ⟨?_, ?_, by simp⟩ <;> rw [C3input_agg] <;> simp [Except.map]

/-- Claim C3 (corrected): when both totals exist, `Balance_Difference =
Total_Supply - Total_Disposition`, and `Balance_Pct_Diff` is: for zero
`Total_Supply`, NaN (the absent marker) only when the difference is also
zero and ±inf otherwise; for nonzero `Total_Supply`, the quotient times
100 rounded to 3 decimals. No error is raised in any case, and
`Total_Supply` is itself never the absent marker (the skipna sums always
produce numbers). -/
theorem C3_theorem (w : WideTable) (b : BalRow) (hb : b ∈ add_balance_check w)
    (s d : ℚ) (hs : b.total_Supply = some s) (hd : b.total_Disposition = some d) :
    b.balance_Difference = some (s - d) ∧
    b.balance_Pct_Diff = some (if s = 0 then
        (if s - d = 0 then PFloat.nan else if 0 < s - d then .pinf else .ninf)
      else .fin (round3 ((s - d) / s * 100))) := by
  obtain ⟨r, hr, hfr⟩ := List.mem_map.mp hb
  subst hfr
  by_cases h1 : supplyCols w = []
  · rw [balRowOf_total_Supply, if_pos h1] at hs
    exact absurd hs (by simp)
  by_cases h2 : dispositionCols w = []
  · rw [balRowOf_total_Disposition, if_pos h2] at hd
    exact absurd hd (by simp)
  rw [balRowOf_eq_of_nonempty w r h1 h2] at hs hd ⊢
  simp only [Option.some.injEq] at hs hd
  subst hs
  subst hd
  refine ⟨rfl, ?_⟩
  simp only [Option.some.injEq, divF]
  by_cases hz : skipnaSum r (supplyCols w) = 0
  · rw [if_pos hz, if_pos hz]
    by_cases hzd : skipnaSum r (supplyCols w) - skipnaSum r (dispositionCols w) = 0
    · simp [hzd, scale100, round3F]
    · by_cases hpos : 0 < skipnaSum r (supplyCols w) - skipnaSum r (dispositionCols w)
      · simp [hzd, hpos, scale100, round3F]
      · simp [hzd, hpos, scale100, round3F]
  · rw [if_neg hz, if_neg hz]
    simp [scale100, round3F]

/-- Claim C3, witness: the corrected statement at a concrete wide table with
supply 180 and disposition 170: difference 10, percentage round3(10/180*100)
= 5.556. -/
theorem C3_witness :
    ∃ b ∈ add_balance_check C3w, b.total_Supply = some 180 ∧
      b.total_Disposition = some 170 ∧ b.balance_Difference = some 10 ∧
      b.balance_Pct_Diff = some (.fin (1389/250)) := by
  have hr : (⟨2020, [("Production", some 180), ("Exports", some 170)]⟩ : WideRow) ∈ C3w.rows := by
    simp [C3w]
  have hb : balRowOf C3w ⟨2020, [("Production", some 180), ("Exports", some 170)]⟩ ∈
      add_balance_check C3w := List.mem_map_of_mem _ hr
  have hs : (balRowOf C3w ⟨2020, [("Production", some 180), ("Exports", some 170)]⟩).total_Supply
      = some 180 := by
    rw [balRowOf_total_Supply]
    simp +decide [C3w, supplyCols, skipnaSum, cellVal]
  have hd : (balRowOf C3w
      ⟨2020, [("Production", some 180), ("Exports", some 170)]⟩).total_Disposition
      = some 170 := by
    rw [balRowOf_total_Disposition]
    simp +decide [C3w, dispositionCols, skipnaSum, cellVal]
  obtain ⟨hbd, hpct⟩ := C3_theorem C3w _ hb 180 170 hs hd
  refine ⟨_, hb, hs, hd, by rw [hbd]; norm_num, ?_⟩
  rw [hpct]
  norm_num [round3, roundHalfEven, Int.fract]

/-! ### Claim C7 -/

/-- Claim C7, counterexample: the metric "Adjustment" occurs in the input
but is absent from the Supply/Disposition classification of the catalog;
`wide_df[["year"] + component_order]` keeps only the ordered columns, so
"Adjustment" is not a data column of the output at all. -/
theorem C7_counterexample :
    (pivot_to_wide_format C7input).map WideTable.cols = .ok ["year"] ∧
    "Adjustment" ∈ C7input.map AnnualRow.component := by
  constructor
  · simp +decide [C7input, pivot_to_wide_format, annualKeys, pivotYears, presentComponents,
      componentOrder, SERIES_MAPPING, List.insertionSort, intLe, Except.map]
  · simp [C7input]

/-- Claim C7 (corrected): the wide columns are year first, then the
Supply-category metrics in catalog (SERIES_MAPPING) declaration order,
then the Disposition-category metrics in catalog declaration order, each
restricted to the metrics that occur; but a metric occurring in the input
while absent from the Supply/Disposition classification of the catalog is
dropped from the output rather than kept as a data column. -/
theorem C7_theorem (annual : List AnnualRow) (w : WideTable)
    (hw : pivot_to_wide_format annual = .ok w) :
    w.cols = "year" :: componentOrder annual ∧
    (∀ c ∈ componentOrder annual,
       (c ∈ SUPPLY_COMPONENTS ∨ c ∈ DISPOSITION_COMPONENTS) ∧
         c ∈ presentComponents annual) ∧
    (∀ c ∈ presentComponents annual, c ∉ SUPPLY_COMPONENTS →
       c ∉ DISPOSITION_COMPONENTS → c ≠ "year" → c ∉ w.cols) := by
  rw [pivot_to_wide_format] at hw
  split at hw
  case isFalse => simp at hw
  case isTrue hnd =>
    obtain rfl := Except.ok.inj hw
    refine ⟨rfl, ?_, ?_⟩
    · intro c hc
      rw [componentOrder, List.mem_append, List.mem_filter, List.mem_filter] at hc
      rcases hc with ⟨_, hc⟩ | ⟨_, hc⟩ <;>
        simp only [Bool.and_eq_true, decide_eq_true_eq] at hc <;>
        exact ⟨by tauto, hc.2⟩
    · intro c hpres hcs hcd hcy hmem
      rw [List.mem_cons] at hmem
      rcases hmem with h | h
      · exact hcy h
      · rw [componentOrder, List.mem_append, List.mem_filter, List.mem_filter] at h
        rcases h with ⟨_, h⟩ | ⟨_, h⟩ <;>
          simp only [Bool.and_eq_true, decide_eq_true_eq] at h
        · exact hcs h.1
        · exact hcd h.1

theorem C7winput_pivot : pivot_to_wide_format C7winput =
    .ok ⟨["year", "Production"], [⟨2020, [("Production", some 100)]⟩]⟩ := by
  simp +decide [C7winput, pivot_to_wide_format, annualKeys, pivotYears, presentComponents,
    componentOrder, cellOf, SERIES_MAPPING, List.insertionSort, intLe]

/-- Claim C7, witness: the corrected statement at a concrete input holding
one classified and one unclassified metric. -/
theorem C7_witness :
    (⟨["year", "Production"], [⟨2020, [("Production", some 100)]⟩]⟩ : WideTable).cols
        = "year" :: componentOrder C7winput ∧
    (∀ c ∈ componentOrder C7winput,
       (c ∈ SUPPLY_COMPONENTS ∨ c ∈ DISPOSITION_COMPONENTS) ∧
         c ∈ presentComponents C7winput) ∧
    (∀ c ∈ presentComponents C7winput, c ∉ SUPPLY_COMPONENTS →
       c ∉ DISPOSITION_COMPONENTS → c ≠ "year" →
       c ∉ (⟨["year", "Production"], [⟨2020, [("Production", some 100)]⟩]⟩ : WideTable).cols) :=
  C7_theorem C7winput _ C7winput_pivot

/-! ### Claim C6 -/

/-- Finding a column in a column-to-cell association list built by mapping
over the column names yields the mapped cell. -/
theorem find?_pair_map (l : List String) (f : String → Option ℚ) (c : String) (hc : c ∈ l) :
    (l.map (fun x => (x, f x))).find? (fun p => p.1 == c) = some (c, f c) := by
  induction l with
  | nil => cases hc
  | cons a as ih =>
    by_cases h : a = c
    · subst h
      simp [List.find?]
    · have hc' : c ∈ as := by
        cases hc with
        | head => exact absurd rfl h
        | tail _ h' => exact h'
      simp only [List.map_cons, List.find?]
      have : ((a, f a).1 == c) = false := by simp [h]
      rw [this]
      exact ih hc'

/-- Claim C6 (confirmed): the pivot never fabricates a zero for a missing
(year, metric) pair — the cell of a wide row under a data column with no
matching observation is the absent marker `none`, which a presence check
distinguishes from every number including 0. -/
theorem C6_theorem (annual : List AnnualRow) (w : WideTable)
    (hw : pivot_to_wide_format annual = .ok w) (r : WideRow) (hr : r ∈ w.rows)
    (c : String) (hc : c ∈ componentOrder annual)
    (habs : ∀ a ∈ annual, ¬(a.year = r.year ∧ a.component = c)) :
    cellVal r c = none ∧ cellVal r c ≠ some 0 := by
  rw [pivot_to_wide_format] at hw
  split at hw
  case isFalse => simp at hw
  case isTrue hnd =>
    obtain rfl := Except.ok.inj hw
    obtain ⟨y, hy, hry⟩ := List.mem_map.mp hr
    subst hry
    have hfind := find?_pair_map (componentOrder annual) (cellOf annual y) c hc
    have hcell : cellVal ⟨y, (componentOrder annual).map
        (fun c => (c, cellOf annual y c))⟩ c = cellOf annual y c := by
      simp [cellVal, hfind]
    have hnone : annual.find? (fun a => a.year == y && a.component == c) = none := by
      rw [List.find?_eq_none]
      intro a ha
      simp only [Bool.and_eq_true, beq_iff_eq, not_and]
      intro h1 h2
      exact habs a ha ⟨h1, h2⟩
    rw [hcell, cellOf, hnone]
    simp

theorem C6input_pivot : pivot_to_wide_format C6input =
    .ok ⟨["year", "Imports", "Exports"],
      [⟨2020, [("Imports", some 7), ("Exports", none)]⟩,
       ⟨2021, [("Imports", none), ("Exports", some 3)]⟩]⟩ := by
  simp +decide [C6input, pivot_to_wide_format, annualKeys, pivotYears, presentComponents,
    componentOrder, cellOf, SERIES_MAPPING, List.insertionSort, List.orderedInsert, intLe]

/-- Claim C6, witness: the 2021 row of the pivot of `C6input` has no
Imports observation, and its Imports cell is the absent marker, not 0. -/
theorem C6_witness :
    cellVal ⟨2021, [("Imports", none), ("Exports", some 3)]⟩ "Imports" = none ∧
    cellVal ⟨2021, [("Imports", none), ("Exports", some 3)]⟩ "Imports" ≠ some 0 := by
  refine C6_theorem C6input _ C6input_pivot _ ?_ "Imports" (by decide) ?_
  · exact List.mem_cons_of_mem _ (List.mem_singleton.mpr rfl)
  · decide

/-! ### Claim C4 -/

/-- The group keys are exactly the (year, component) pairs of the input. -/
theorem mem_groupKeys (rows : List SilverRow) (k : Int × String) :
    k ∈ groupKeys rows ↔ ∃ r ∈ rows, (r.year, r.component) = k := by
  rw [groupKeys, (List.perm_insertionSort keyLe _).mem_iff, List.mem_dedup, List.mem_map]

theorem nodup_groupKeys (rows : List SilverRow) : (groupKeys rows).Nodup :=
  (List.perm_insertionSort keyLe _).symm.nodup (List.nodup_dedup _)

/-- A duplicate-free list with exactly one element satisfying `p` counts 1. -/
theorem countP_eq_one_of_mem_unique {A : Type} (l : List A) (hl : l.Nodup) (p : A → Bool)
    (a : A) (ha : a ∈ l) (hpa : p a = true) (huniq : ∀ b ∈ l, p b = true → b = a) :
    l.countP p = 1 := by
  induction l with
  | nil => cases ha
  | cons x xs ih =>
    rw [List.countP_cons]
    obtain ⟨hxnot, hxs⟩ := List.nodup_cons.mp hl
    by_cases hx : p x = true
    · have hxa : x = a := huniq x (List.mem_cons_self x xs) hx
      subst hxa
      have h0 : xs.countP p = 0 := by
        rw [List.countP_eq_zero]
        intro b hb hpb
        have hba : b = x := huniq b (List.mem_cons_of_mem _ hb) hpb
        exact hxnot (hba ▸ hb)
      simp [h0, hx]
    · have hax : a ≠ x := fun he => hx (he ▸ hpa)
      have ha' : a ∈ xs := by
        rcases List.mem_cons.mp ha with hh | hh
        · exact absurd hh hax
        · exact hh
      rw [ih hxs ha' (fun b hb hpb => huniq b (List.mem_cons_of_mem _ hb) hpb)]
      simp [hx]

/-- Claim C4 (confirmed): for a non-empty input, the annual value of every
populated (year, metric) group is the unweighted arithmetic mean of
exactly the values of that group (no weighting, no normalization for partial
coverage), the group appears exactly once in the output, and a group of
identical values v averages to exactly v. -/
theorem C4_theorem (rows : List SilverRow) (h : rows ≠ []) (y : Int) (c : String)
    (hex : ∃ r ∈ rows, r.year = y ∧ r.component = c) :
    (∃ a ∈ calculate_annual_averages rows, a.year = y ∧ a.component = c ∧
       a.annual_avg_mbblpd = meanQ (groupValues rows (y, c))) ∧
    (calculate_annual_averages rows).countP
        (fun a => decide (a.year = y) && decide (a.component = c)) = 1 ∧
    (∀ v : ℚ, (∀ q ∈ groupValues rows (y, c), q = v) →
       meanQ (groupValues rows (y, c)) = v) := by
  obtain ⟨r, hr, hy, hc⟩ := hex
  have hkmem : (y, c) ∈ groupKeys rows :=
    (mem_groupKeys rows (y, c)).mpr ⟨r, hr, by rw [hy, hc]⟩
  refine ⟨?_, ?_, ?_⟩
  · exact ⟨⟨y, c, meanQ (groupValues rows (y, c))⟩,
      List.mem_map_of_mem _ hkmem, rfl, rfl, rfl⟩
  · have hinj : Function.Injective
        (fun (k : Int × String) => (⟨k.1, k.2, meanQ (groupValues rows k)⟩ : AnnualRow)) := by
      intro k1 k2 he
      simp only [AnnualRow.mk.injEq] at he
      exact Prod.ext he.1 he.2.1
    refine countP_eq_one_of_mem_unique (calculate_annual_averages rows)
      ((nodup_groupKeys rows).map hinj) _
      ⟨y, c, meanQ (groupValues rows (y, c))⟩ (List.mem_map_of_mem _ hkmem)
      (by simp) ?_
    intro b hb hpb
    obtain ⟨k, hk, hbk⟩ := List.mem_map.mp hb
    subst hbk
    simp only [Bool.and_eq_true, decide_eq_true_eq] at hpb
    obtain ⟨h1, h2⟩ := hpb
    have : k = (y, c) := Prod.ext h1 h2
    rw [this]
  · intro v hv
    have hmem : r.value_mbblpd ∈ groupValues rows (y, c) := by
      rw [groupValues]
      exact List.mem_map_of_mem _ (List.mem_filter.mpr ⟨hr, by simp [hy, hc]⟩)
    have hlen : (groupValues rows (y, c)).length ≠ 0 :=
      fun h0 => by rw [List.length_eq_zero.mp h0] at hmem; cases hmem
    have hsum := List.sum_eq_card_nsmul (groupValues rows (y, c)) v hv
    have hne : ((groupValues rows (y, c)).length : ℚ) ≠ 0 := by exact_mod_cast hlen
    rw [meanQ, hsum, nsmul_eq_mul, mul_div_cancel_left₀ _ hne]

/-- Claim C4, witness: six months at 100 plus six months at 200 average to
exactly 150, the unweighted arithmetic mean of the twelve values. -/
theorem C4_witness :
    (∃ a ∈ calculate_annual_averages C4input, a.year = 2020 ∧ a.component = "Production" ∧
       a.annual_avg_mbblpd = meanQ (groupValues C4input (2020, "Production"))) ∧
    (calculate_annual_averages C4input).countP
        (fun a => decide (a.year = 2020) && decide (a.component = "Production")) = 1 ∧
    meanQ (groupValues C4input (2020, "Production")) = 150 := by
  obtain ⟨h1, h2, _⟩ := C4_theorem C4input (by simp [C4input]) 2020 "Production"
    ⟨⟨2020, "Production", 100⟩, by simp [C4input], rfl, rfl⟩
  have hm : meanQ (groupValues C4input (2020, "Production")) = 150 := by
    simp +decide [C4input, groupValues, meanQ]
    norm_num
  exact ⟨h1, h2, hm⟩

/-! ### Claims C5 and C8 -/

/-- Claim C5 (confirmed): when every period parses, normalization succeeds
and drops exactly the rows whose value fails numeric coercion and no
others (the output is a permutation of the images of the coercible rows), no
output row has a null value, and every surviving row carries the year and
month of its parsed date. -/
theorem C5_theorem (rows : List RawRow)
    (hdates : ∀ r ∈ rows, (parseYM r.period).isSome) :
    ∃ out, clean_and_normalize rows = .ok out ∧
      out.Perm ((rows.filter (fun r => (parseNumeric r.value).isSome)).map mkObs) ∧
      out.length = (rows.filter (fun r => (parseNumeric r.value).isSome)).length ∧
      (∀ o ∈ out, o.value_mbblpd.isSome) ∧
      (∀ o ∈ out, ∃ r ∈ rows, o = mkObs r ∧ parseYM r.period = some (o.year, o.month) ∧
        o.date = (o.year, o.month)) := by
  have hall : rows.all (fun r => (parseYM r.period).isSome) = true :=
    List.all_eq_true.mpr (fun r hr => hdates r hr)
  have hfm : (rows.map mkObs).filter (fun o => o.value_mbblpd.isSome) =
      (rows.filter (fun r => (parseNumeric r.value).isSome)).map mkObs := by
    rw [List.filter_map]
    rfl
  have hperm : ((List.insertionSort obsLe (rows.map mkObs)).filter
      (fun o => o.value_mbblpd.isSome)).Perm
      ((rows.filter (fun r => (parseNumeric r.value).isSome)).map mkObs) := by
    rw [← hfm]
    exact List.Perm.filter _ (List.perm_insertionSort obsLe _)
  refine ⟨_, by rw [clean_and_normalize, if_pos hall], hperm, ?_, ?_, ?_⟩
  · rw [hperm.length_eq, List.length_map]
  · intro o ho
    exact (List.mem_filter.mp ho).2
  · intro o ho
    have ho' : o ∈ (rows.filter (fun r => (parseNumeric r.value).isSome)).map mkObs :=
      hperm.mem_iff.mp ho
    obtain ⟨r, hrf, hor⟩ := List.mem_map.mp ho'
    obtain ⟨hr, _⟩ := List.mem_filter.mp hrf
    obtain ⟨p, hp⟩ := Option.isSome_iff_exists.mp (hdates r hr)
    have hobs : mkObs r = ⟨p, r.series_id, r.component, parseNumeric r.value, p.1, p.2,
        categoryOf r.component⟩ := by
      rw [mkObs, hp]
      simp
    refine ⟨r, hr, hor.symm, ?_, ?_⟩
    · rw [← hor, hobs, hp]
    · rw [← hor, hobs]

/-- Claim C5, witness: the four-row batch with one non-numeric value — all
dates parse, and normalization yields exactly 3 rows. -/
theorem C5_witness :
    (∀ r ∈ C5input, (parseYM r.period).isSome) ∧
    (clean_and_normalize C5input).map List.length = .ok 3 := by
  have hd : ∀ r ∈ C5input, (parseYM r.period).isSome := by decide
  obtain ⟨out, hout, _, hlen, _, _⟩ := C5_theorem C5input hd
  refine ⟨hd, ?_⟩
  rw [hout, Except.map, hlen]
  have : (C5input.filter (fun r => (parseNumeric r.value).isSome)).length = 3 := by decide
  rw [this]

/-- Claim C8 (confirmed): a single unparsable period string fails the whole
normalize call — `pd.to_datetime(..., format="%Y-%m")` raises for the
entire batch, so no per-record drop happens. -/
theorem C8_theorem (rows : List RawRow) (hbad : ∃ r ∈ rows, parseYM r.period = none) :
    clean_and_normalize rows = .error "time data does not match format" := by
  have hfalse : ¬(rows.all (fun r => (parseYM r.period).isSome) = true) := by
    intro hall
    obtain ⟨r, hr, hnone⟩ := hbad
    have := List.all_eq_true.mp hall r hr
    rw [hnone] at this
    exact absurd this (by simp)
  rw [clean_and_normalize, if_neg hfalse]

/-- Claim C8, witness: one bad period in a two-row batch makes the whole
normalize call fail. -/
theorem C8_witness :
    (∃ r ∈ C8input, parseYM r.period = none) ∧
    clean_and_normalize C8input = .error "time data does not match format" :=
  ⟨by decide, C8_theorem C8input (by decide)⟩

/-! ### Claim C9 -/

theorem mapM_parse_all_empty (raw : List (String × ApiResponse))
    (hempty : ∀ p ∈ raw, parse_series_data p.1 p.2 = .ok []) :
    raw.mapM (fun p => parse_series_data p.1 p.2) =
      .ok (raw.map (fun _ => ([] : List RawRow))) := by
  induction raw with
  | nil => rfl
  | cons p ps ih =>
    rw [List.mapM_cons, hempty p (List.mem_cons_self p ps),
      ih (fun q hq => hempty q (List.mem_cons_of_mem _ hq))]
    rfl

/-- Claim C9 (confirmed): when every series parses to an empty table, the
normalizer run fails (`pd.concat` of no objects raises) instead of
producing an empty artifact. -/
theorem C9_theorem (raw : List (String × ApiResponse))
    (hempty : ∀ p ∈ raw, parse_series_data p.1 p.2 = .ok []) :
    silverRun raw = .error "No objects to concatenate" := by
  have hfil : (raw.map (fun _ => ([] : List RawRow))).filter (fun df => !df.isEmpty) = [] := by
    rw [List.filter_eq_nil_iff]
    intro a ha
    obtain ⟨_, _, ha'⟩ := List.mem_map.mp ha
    rw [← ha']
    simp
  rw [silverRun, mapM_parse_all_empty raw hempty]
  simp [Bind.bind, Except.bind, hfil]

/-- Claim C9, witness: three series — one with no data key, one with an
empty record list, one with no response envelope — make the run fail. -/
theorem C9_witness :
    (∀ p ∈ C9input, parse_series_data p.1 p.2 = .ok []) ∧
    silverRun C9input = .error "No objects to concatenate" := by
  have hempty : ∀ p ∈ C9input, parse_series_data p.1 p.2 = .ok [] := by
    intro p hp
    fin_cases hp <;> rfl
  exact ⟨hempty, C9_theorem C9input hempty⟩

/-! ### Claim C10 -/

/-- Claim C10 (confirmed): saving does not modify the table the aggregation
run returns — the table the run hands back is exactly the (unrounded) output
of the aggregation pipeline, and the persisted artifact is its rounded
copy (`df.copy()` in `save_annual_data`). -/
theorem C10_theorem (rows : List SilverRow) (ret pers : List BalRow)
    (h : goldRun rows = .ok (ret, pers)) :
    goldAggregate rows = .ok ret ∧ pers = save_annual_data ret ∧
      pers = ret.map roundBalRow := by
  rw [goldRun] at h
  cases hag : goldAggregate rows with
  | error e =>
    rw [hag] at h
    exact absurd h (by simp [Bind.bind, Except.bind])
  | ok bal =>
    rw [hag] at h
    simp only [Bind.bind, Except.bind, pure, Except.pure, Except.ok.injEq,
      Prod.mk.injEq] at h
    obtain ⟨h1, h2⟩ := h
    subst h1
    subst h2
    exact ⟨rfl, rfl, rfl⟩

theorem C10input_annual : calculate_annual_averages C10input =
    [⟨2020, "Production", 4/3⟩] := by
  simp +decide [C10input, calculate_annual_averages, groupKeys, groupValues, meanQ,
    List.insertionSort, keyLe, keyLeB]
  norm_num

theorem C10input_pivot : pivot_to_wide_format [⟨2020, "Production", (4/3 : ℚ)⟩] =
    .ok ⟨["year", "Production"], [⟨2020, [("Production", some (4/3))]⟩]⟩ := by
  simp +decide [pivot_to_wide_format, annualKeys, pivotYears, presentComponents,
    componentOrder, cellOf, SERIES_MAPPING, List.insertionSort, intLe]

theorem C10input_run : goldRun C10input = .ok (C10ret, C10pers) := by
  rw [goldRun, goldAggregate, C10input_annual]
  simp +decide [Bind.bind, Except.bind, C10input_pivot, pure, Except.pure, add_balance_check,
    balRowOf, supplyCols, dispositionCols, skipnaSum, cellVal, save_annual_data, roundBalRow,
    C10ret, C10pers, round3F, round3, roundHalfEven]
  norm_num [Int.fract]

/-- Claim C10, witness: on a concrete input whose annual mean is 4/3, the
run returns the table still holding 4/3 while the persisted copy holds the
rounded 1.333 — the two tables differ. -/
theorem C10_witness :
    goldAggregate C10input = .ok C10ret ∧ C10pers = save_annual_data C10ret ∧
      C10ret ≠ C10pers := by
  obtain ⟨h1, h2, _⟩ := C10_theorem C10input C10ret C10pers C10input_run
  refine ⟨h1, h2, fun he => ?_⟩
  norm_num [C10ret, C10pers] at he
